import Mathlib

/-!
Shallow embedding of the NEAR e-commerce contract in `src/src/lib.rs`
(`EcommerceContract`: `pay_order`, `get_order`, `refund`,
`transfer_callback`).

Modelling conventions:
* `u128` balances and `u64` timestamps become `Nat`; the only arithmetic
  is `attached_deposit - order_amount`, which the code performs only after
  asserting `attached_deposit >= order_amount`, so no wrap-around can occur
  and plain `Nat` subtraction is exact.
* `AccountId` and `OrderId` are `String`s.
* A Rust `panic!`/failed `assert!` aborts the NEAR call and reverts every
  write of that call; we model each panic site as an `Except` error
  carrying no state, so an erroneous call observably leaves the store as
  it was.
* `near_sdk::collections::LookupMap` is modelled as an association list
  with overwrite-on-insert semantics.
* Host-environment reads (`env::attached_deposit`, `env::signer_account_id`,
  `env::predecessor_account_id`, `env::block_timestamp`,
  `env::promise_results_count`, `env::promise_result`) become explicit
  parameters.
* A `Promise` issued by the contract is recorded in the return value
  (`Transfer` for the fire-and-forget change transfer in `pay_order`,
  `RefundOutcome.transferThen` for the refund transfer with its attached
  `transfer_callback` continuation).
-/

abbrev AccountId := String

abbrev OrderId := String

/-- The `Order` record, reconstructed from the struct literal in
`pay_order` (lib.rs lines 50-58) and its field uses; the defining module
`order.rs` is not part of the sources, but every field and its type is
fixed by `lib.rs`. -/
structure Order where
  order_id : OrderId
  payer_id : AccountId
  amount : Nat
  received_amount : Nat
  is_completed : Bool
  is_refund : Bool
  created_at : Nat
deriving DecidableEq, Repr

/-- One panic site of the contract, named after the spec's error taxonomy:
* `InsufficientDeposit` — `assert!(attached_deposit >= order_amount)`,
  message `ERROR_DEPOSIT_NOT_ENOUGH`;
* `NotFound` — the three `expect`s on a missing order
  (`NOT_FOUND_ORDER_ID`, `ERROR_NOT_FOUND_ORDER`, `ERROR_ORDER_NOT_FOUND`);
* `Unauthorized` — `assert_eq!(predecessor_account_id, owner_id)`;
* `InvalidState` — `assert!(order.is_completed && !order.is_refund)`;
* `ProtocolViolation` — `assert_eq!(promise_results_count, 1)`,
  message `ERROR_TOO_MANY_RESULTS`;
* `Unreachable` — the `unreachable!()` arm for `PromiseResult::NotReady`. -/
inductive ContractError where
  | InsufficientDeposit
  | NotFound
  | Unauthorized
  | InvalidState
  | ProtocolViolation
  | Unreachable
deriving DecidableEq, Repr

/-- The `near_sdk::PromiseResult` type; the `Successful` payload bytes are ignored
by `transfer_callback`, so they are not modelled. -/
inductive PromiseResult where
  | NotReady
  | Successful
  | Failed
deriving DecidableEq, Repr

/-- A fire-and-forget `Promise::new(receiver).transfer(amount)`. -/
structure Transfer where
  receiver : AccountId
  amount : Nat
deriving DecidableEq, Repr

/-- What `refund` returns: `PromiseOrValue::Value(U128(n))`, or the promise
`Promise::new(receiver_id).transfer(amount).then(ext_self::transfer_callback(callback_order_id))`. -/
inductive RefundOutcome where
  | value (n : Nat)
  | transferThen (receiver_id : AccountId) (amount : Nat) (callback_order_id : OrderId)
deriving DecidableEq, Repr

/-- Model of `LookupMap::get`: the value stored under `k`, if any. -/
def ordersGet (m : List (OrderId × Order)) (k : OrderId) : Option Order :=
  match m.find? (fun p => p.1 = k) with
  | some p => some p.2
  | none => none

/-- Model of `LookupMap::insert`: unconditional overwrite of the value under `k`. -/
def ordersInsert (m : List (OrderId × Order)) (k : OrderId) (v : Order) :
    List (OrderId × Order) :=
  (k, v) :: m.filter (fun p => p.1 ≠ k)

/-- The contract state: `owner_id` and the `orders` map. -/
structure EcommerceContract where
  owner_id : AccountId
  orders : List (OrderId × Order)
deriving DecidableEq, Repr

/-- The constructor `EcommerceContract::new`. -/
def EcommerceContract.new (owner_id : AccountId) : EcommerceContract :=
  { owner_id := owner_id, orders := [] }

/-- Model of `pay_order` (lib.rs lines 42-69).  Returns the new state, the returned
change amount, and the list of transfers issued. -/
def pay_order (self : EcommerceContract) (order_id : OrderId)
    (order_amount : Nat) (attached_deposit : Nat)
    (signer_account_id : AccountId) (block_timestamp : Nat) :
    Except ContractError (EcommerceContract × Nat × List Transfer) :=
  if attached_deposit < order_amount then
    .error .InsufficientDeposit
  else
    let order : Order :=
      { order_id := order_id
        payer_id := signer_account_id
        amount := order_amount
        received_amount := attached_deposit
        is_completed := true
        is_refund := false
        created_at := block_timestamp }
    let self' : EcommerceContract :=
      { self with orders := ordersInsert self.orders order_id order }
    if attached_deposit > order_amount then
      .ok (self', attached_deposit - order_amount,
        [{ receiver := signer_account_id,
           amount := attached_deposit - order_amount }])
    else
      .ok (self', 0, [])

/-- Model of `get_order` (lib.rs lines 72-74). -/
def get_order (self : EcommerceContract) (order_id : OrderId) :
    Except ContractError Order :=
  match ordersGet self.orders order_id with
  | some o => .ok o
  | none => .error .NotFound

/-- Model of `refund` (lib.rs lines 83-113). -/
def refund (self : EcommerceContract) (order_id : OrderId)
    (predecessor_account_id : AccountId) :
    Except ContractError (EcommerceContract × RefundOutcome) :=
  if predecessor_account_id ≠ self.owner_id then
    .error .Unauthorized
  else
    match ordersGet self.orders order_id with
    | none => .error .NotFound
    | some order =>
      if order.is_completed && !order.is_refund then
        let order' := { order with is_refund := true }
        let self' : EcommerceContract :=
          { self with orders := ordersInsert self.orders order_id order' }
        if order'.amount > 0 then
          .ok (self', .transferThen order'.payer_id order'.amount order_id)
        else
          .ok (self', .value 0)
      else
        .error .InvalidState

/-- Model of `transfer_callback` (lib.rs lines 119-135).  `results` is the list of
promise results the host delivers (`env::promise_results_count` is its
length, `env::promise_result(0)` its head). -/
def transfer_callback (self : EcommerceContract) (order_id : OrderId)
    (results : List PromiseResult) :
    Except ContractError (EcommerceContract × Nat) :=
  if results.length ≠ 1 then
    .error .ProtocolViolation
  else
    match results.head? with
    | none => .error .ProtocolViolation
    | some .NotReady => .error .Unreachable
    | some .Successful => .ok (self, 0)
    | some .Failed =>
      match ordersGet self.orders order_id with
      | none => .error .NotFound
      | some order =>
        let order' := { order with is_refund := false }
        let self' : EcommerceContract :=
          { self with orders := ordersInsert self.orders order_id order' }
        .ok (self', order'.amount)

/-! ### Map lemmas -/

theorem ordersGet_insert_self (m : List (OrderId × Order)) (k : OrderId)
    (v : Order) : ordersGet (ordersInsert m k v) k = some v := by
  simp [ordersGet, ordersInsert, List.find?]

theorem mem_of_ordersGet {m : List (OrderId × Order)} {k : OrderId} {o : Order}
    (h : ordersGet m k = some o) : (k, o) ∈ m := by
  unfold ordersGet at h
  cases hf : List.find? (fun p => p.1 = k) m with
  | none => rw [hf] at h; cases h
  | some p =>
    rw [hf] at h
    have hmem := List.mem_of_find?_eq_some hf
    have hpk : p.1 = k := by simpa using List.find?_some hf
    have hpo : p.2 = o := by simpa using h
    have : p = (k, o) := Prod.ext hpk hpo
    rwa [this] at hmem

theorem forall_mem_ordersInsert {P : OrderId × Order → Prop}
    {m : List (OrderId × Order)} {k : OrderId} {v : Order}
    (hm : ∀ p ∈ m, P p) (hv : P (k, v)) :
    ∀ p ∈ ordersInsert m k v, P p := by
  intro p hp
  simp only [ordersInsert, List.mem_cons, List.mem_filter] at hp
  rcases hp with rfl | ⟨hmem, _⟩
  · exact hv
  · exact hm _ hmem

/-! ### Claims -/

/-- C1: a refund by the owner on an existing order with `is_completed`,
not yet refunded, and positive amount, stores the order with
`is_refund = true` before the external outcome is known, and issues a
transfer of `order.amount` to `order.payer_id` with the continuation
`transfer_callback` attached, keyed by `order_id`. -/
theorem refund_positive_optimistic (self : EcommerceContract)
    (order_id : OrderId) (order : Order)
    (hget : ordersGet self.orders order_id = some order)
    (hc : order.is_completed = true) (hr : order.is_refund = false)
    (ha : 0 < order.amount) :
    refund self order_id self.owner_id =
      .ok ({ self with orders :=
               ordersInsert self.orders order_id { order with is_refund := true } },
           .transferThen order.payer_id order.amount order_id)
    ∧ ordersGet (ordersInsert self.orders order_id { order with is_refund := true })
        order_id = some { order with is_refund := true } := by
  constructor
  · simp [refund, hget, hc, hr, ha]
  · exact ordersGet_insert_self _ _ _

theorem refund_positive_optimistic_witness :
    refund { owner_id := "owner",
             orders := [("o1",
               { order_id := "o1", payer_id := "alice", amount := 1000,
                 received_amount := 1500, is_completed := true,
                 is_refund := false, created_at := 5 })] } "o1" "owner" =
      .ok ({ owner_id := "owner",
             orders := [("o1",
               { order_id := "o1", payer_id := "alice", amount := 1000,
                 received_amount := 1500, is_completed := true,
                 is_refund := true, created_at := 5 })] },
           .transferThen "alice" 1000 "o1") :=
  ((refund_positive_optimistic
      { owner_id := "owner",
        orders := [("o1",
          { order_id := "o1", payer_id := "alice", amount := 1000,
            received_amount := 1500, is_completed := true,
            is_refund := false, created_at := 5 })] } "o1"
      { order_id := "o1", payer_id := "alice", amount := 1000,
        received_amount := 1500, is_completed := true,
        is_refund := false, created_at := 5 }
      (by decide) rfl rfl (by decide)).1)

/-- C2: `transfer_callback` with exactly one delivered result: on
`Successful` it changes no state and returns 0; on `Failed` it re-reads the
order under `order_id`, stores it with `is_refund = false`, and returns
that order's amount. -/
theorem transfer_callback_reconciliation (self : EcommerceContract)
    (order_id : OrderId) (order : Order)
    (hget : ordersGet self.orders order_id = some order) :
    transfer_callback self order_id [.Successful] = .ok (self, 0)
    ∧ transfer_callback self order_id [.Failed] =
        .ok ({ self with orders :=
                 ordersInsert self.orders order_id { order with is_refund := false } },
             order.amount)
    ∧ ordersGet (ordersInsert self.orders order_id { order with is_refund := false })
        order_id = some { order with is_refund := false } := by
  refine ⟨?_, ?_, ordersGet_insert_self _ _ _⟩
  · simp [transfer_callback]
  · simp [transfer_callback, hget]

theorem transfer_callback_reconciliation_witness :
    transfer_callback
      { owner_id := "owner",
        orders := [("o1",
          { order_id := "o1", payer_id := "alice", amount := 1000,
            received_amount := 1500, is_completed := true,
            is_refund := true, created_at := 5 })] } "o1" [.Failed] =
      .ok ({ owner_id := "owner",
             orders := [("o1",
               { order_id := "o1", payer_id := "alice", amount := 1000,
                 received_amount := 1500, is_completed := true,
                 is_refund := false, created_at := 5 })] },
           1000) :=
  ((transfer_callback_reconciliation
      { owner_id := "owner",
        orders := [("o1",
          { order_id := "o1", payer_id := "alice", amount := 1000,
            received_amount := 1500, is_completed := true,
            is_refund := true, created_at := 5 })] } "o1"
      { order_id := "o1", payer_id := "alice", amount := 1000,
        received_amount := 1500, is_completed := true,
        is_refund := true, created_at := 5 }
      (by decide)).2.1)

/-- C3: `refund` checks (1) caller is owner, (2) order exists,
(3) `is_completed && !is_refund`, in that order, failing with
`Unauthorized`, `NotFound`, `InvalidState` respectively; a failing check
returns an error that carries no state (the model of a reverting panic),
and a non-owner caller fails `Unauthorized` for every store, existing
order or not. -/
theorem refund_precondition_checks (self : EcommerceContract)
    (order_id : OrderId) (predecessor_account_id : AccountId) :
    (predecessor_account_id ≠ self.owner_id →
      refund self order_id predecessor_account_id = .error .Unauthorized)
    ∧ (predecessor_account_id = self.owner_id →
        ordersGet self.orders order_id = none →
        refund self order_id predecessor_account_id = .error .NotFound)
    ∧ (∀ order, predecessor_account_id = self.owner_id →
        ordersGet self.orders order_id = some order →
        ¬(order.is_completed = true ∧ order.is_refund = false) →
        refund self order_id predecessor_account_id = .error .InvalidState) := by
  refine ⟨fun hne => ?_, fun heq hnone => ?_, fun order heq hsome hbad => ?_⟩
  · simp [refund, hne]
  · simp [refund, heq, hnone]
  · have : ¬(order.is_completed && !order.is_refund) = true := by
      simp only [Bool.and_eq_true, Bool.not_eq_true']
      intro ⟨h1, h2⟩
      exact hbad ⟨h1, h2⟩
    simp [refund, heq, hsome, this]

theorem refund_precondition_checks_witness :
    refund (EcommerceContract.new "owner") "o1" "mallory" = .error .Unauthorized
    ∧ refund (EcommerceContract.new "owner") "o1" "owner" = .error .NotFound
    ∧ refund { owner_id := "owner",
               orders := [("o1",
                 { order_id := "o1", payer_id := "alice", amount := 1000,
                   received_amount := 1500, is_completed := true,
                   is_refund := true, created_at := 5 })] } "o1" "owner" =
        .error .InvalidState :=
  ⟨(refund_precondition_checks (EcommerceContract.new "owner") "o1" "mallory").1
      (by decide),
   (refund_precondition_checks (EcommerceContract.new "owner") "o1" "owner").2.1
      rfl (by decide),
   (refund_precondition_checks
      { owner_id := "owner",
        orders := [("o1",
          { order_id := "o1", payer_id := "alice", amount := 1000,
            received_amount := 1500, is_completed := true,
            is_refund := true, created_at := 5 })] } "o1" "owner").2.2
      { order_id := "o1", payer_id := "alice", amount := 1000,
        received_amount := 1500, is_completed := true,
        is_refund := true, created_at := 5 }
      rfl (by decide) (by decide)⟩

/-- The `Order` record that `pay_order` constructs and stores
(the struct literal at lib.rs lines 50-58). -/
def payRecord (order_id : OrderId) (order_amount attached_deposit : Nat)
    (signer_account_id : AccountId) (block_timestamp : Nat) : Order :=
  { order_id := order_id, payer_id := signer_account_id,
    amount := order_amount, received_amount := attached_deposit,
    is_completed := true, is_refund := false,
    created_at := block_timestamp }

/-- Helper shared by the `pay_order` claims: with a sufficient deposit,
`pay_order` writes the full record and returns the change
`attached_deposit - order_amount` (which is 0 when they are equal). -/
theorem pay_order_ok (self : EcommerceContract) (order_id : OrderId)
    (order_amount attached_deposit : Nat) (signer_account_id : AccountId)
    (block_timestamp : Nat) (h : order_amount ≤ attached_deposit) :
    ∃ transfers,
      pay_order self order_id order_amount attached_deposit signer_account_id
          block_timestamp =
        .ok ({ self with
                 orders := ordersInsert self.orders order_id
                   (payRecord order_id order_amount attached_deposit
                     signer_account_id block_timestamp) },
             attached_deposit - order_amount, transfers) := by
  by_cases hgt : order_amount < attached_deposit
  · exact ⟨[{ receiver := signer_account_id,
              amount := attached_deposit - order_amount }],
      by simp [pay_order, payRecord, Nat.not_lt.mpr h, hgt]⟩
  · refine ⟨[], ?_⟩
    simp [pay_order, payRecord, Nat.not_lt.mpr h, hgt,
      Nat.sub_eq_zero_of_le (Nat.le_of_not_lt hgt)]

/-- C4: paying with `attached_deposit >= order_amount` stores exactly
`payRecord`: `amount = order_amount`, `received_amount = attached_deposit`,
`is_completed = true`, `is_refund = false`, `payer_id` the signer — and
returns the change `attached_deposit - order_amount` (0 when equal). -/
theorem pay_order_success_record (self : EcommerceContract)
    (order_id : OrderId) (order_amount attached_deposit : Nat)
    (signer_account_id : AccountId) (block_timestamp : Nat)
    (h : order_amount ≤ attached_deposit) :
    ∃ transfers,
      pay_order self order_id order_amount attached_deposit signer_account_id
          block_timestamp =
        .ok ({ self with
                 orders := ordersInsert self.orders order_id
                   (payRecord order_id order_amount attached_deposit
                     signer_account_id block_timestamp) },
             attached_deposit - order_amount, transfers)
      ∧ ordersGet
          (ordersInsert self.orders order_id
            (payRecord order_id order_amount attached_deposit
              signer_account_id block_timestamp)) order_id =
          some (payRecord order_id order_amount attached_deposit
            signer_account_id block_timestamp)
      ∧ (payRecord order_id order_amount attached_deposit signer_account_id
          block_timestamp).amount = order_amount
      ∧ (payRecord order_id order_amount attached_deposit signer_account_id
          block_timestamp).received_amount = attached_deposit
      ∧ (payRecord order_id order_amount attached_deposit signer_account_id
          block_timestamp).is_completed = true
      ∧ (payRecord order_id order_amount attached_deposit signer_account_id
          block_timestamp).is_refund = false
      ∧ (payRecord order_id order_amount attached_deposit signer_account_id
          block_timestamp).payer_id = signer_account_id := by
  obtain ⟨t, ht⟩ := pay_order_ok self order_id order_amount attached_deposit
    signer_account_id block_timestamp h
  exact ⟨t, ht, ordersGet_insert_self _ _ _, rfl, rfl, rfl, rfl, rfl⟩

theorem pay_order_success_record_witness :
    ∃ transfers,
      pay_order (EcommerceContract.new "owner") "o1" 1000 1500 "alice" 5 =
        .ok ({ (EcommerceContract.new "owner") with
                 orders := ordersInsert (EcommerceContract.new "owner").orders
                   "o1" (payRecord "o1" 1000 1500 "alice" 5) },
             1500 - 1000, transfers)
      ∧ ordersGet
          (ordersInsert (EcommerceContract.new "owner").orders "o1"
            (payRecord "o1" 1000 1500 "alice" 5)) "o1" =
          some (payRecord "o1" 1000 1500 "alice" 5)
      ∧ (payRecord "o1" 1000 1500 "alice" 5).amount = 1000
      ∧ (payRecord "o1" 1000 1500 "alice" 5).received_amount = 1500
      ∧ (payRecord "o1" 1000 1500 "alice" 5).is_completed = true
      ∧ (payRecord "o1" 1000 1500 "alice" 5).is_refund = false
      ∧ (payRecord "o1" 1000 1500 "alice" 5).payer_id = "alice" :=
  pay_order_success_record (EcommerceContract.new "owner") "o1" 1000 1500
    "alice" 5 (by decide)

/-- C5: paying with `attached_deposit < order_amount` fails with
`InsufficientDeposit`; the error carries no state (the model of a
reverting panic), so on a store where the identifier was absent,
`get_order` still fails `NotFound`. -/
theorem pay_order_insufficient (self : EcommerceContract)
    (order_id : OrderId) (order_amount attached_deposit : Nat)
    (signer_account_id : AccountId) (block_timestamp : Nat)
    (h : attached_deposit < order_amount) :
    pay_order self order_id order_amount attached_deposit signer_account_id
        block_timestamp = .error .InsufficientDeposit
    ∧ (ordersGet self.orders order_id = none →
        get_order self order_id = .error .NotFound) := by
  constructor
  · simp [pay_order, h]
  · intro hn
    simp [get_order, hn]

theorem pay_order_insufficient_witness :
    pay_order (EcommerceContract.new "owner") "o2" 500 400 "alice" 5 =
        .error .InsufficientDeposit
    ∧ get_order (EcommerceContract.new "owner") "o2" = .error .NotFound :=
  ⟨(pay_order_insufficient (EcommerceContract.new "owner") "o2" 500 400
      "alice" 5 (by decide)).1,
   (pay_order_insufficient (EcommerceContract.new "owner") "o2" 500 400
      "alice" 5 (by decide)).2 (by decide)⟩

/-- C6: `transfer_callback` with a delivered-result count other than one
fails `ProtocolViolation`, its result carrying the error alone (no order
state is touched), and a `NotReady` (pending) result hits the
`unreachable!()` arm, modelled as the fatal `Unreachable` error. -/
theorem transfer_callback_protocol (self : EcommerceContract)
    (order_id : OrderId) (results : List PromiseResult) :
    (results.length ≠ 1 →
      transfer_callback self order_id results = .error .ProtocolViolation)
    ∧ transfer_callback self order_id [.NotReady] = .error .Unreachable := by
  constructor
  · intro h
    simp [transfer_callback, h]
  · simp [transfer_callback]

theorem transfer_callback_protocol_witness :
    transfer_callback (EcommerceContract.new "owner") "o1" [] =
        .error .ProtocolViolation
    ∧ transfer_callback (EcommerceContract.new "owner") "o1"
        [.Failed, .Failed] = .error .ProtocolViolation
    ∧ transfer_callback (EcommerceContract.new "owner") "o1" [.NotReady] =
        .error .Unreachable :=
  ⟨(transfer_callback_protocol (EcommerceContract.new "owner") "o1" []).1
      (by decide),
   (transfer_callback_protocol (EcommerceContract.new "owner") "o1"
      [.Failed, .Failed]).1 (by decide),
   (transfer_callback_protocol (EcommerceContract.new "owner") "o1" []).2⟩

/-- C7: a refund by the owner on an existing completed, not-yet-refunded
order with `amount = 0` returns the synchronous value 0 — a
`RefundOutcome.value`, not a `transferThen`, so no external transfer is
issued — and stores the record with `is_refund = true`. -/
theorem refund_zero_amount (self : EcommerceContract) (order_id : OrderId)
    (order : Order)
    (hget : ordersGet self.orders order_id = some order)
    (hc : order.is_completed = true) (hr : order.is_refund = false)
    (ha : order.amount = 0) :
    refund self order_id self.owner_id =
      .ok ({ self with
               orders := ordersInsert self.orders order_id
                 { order with is_refund := true } },
           .value 0)
    ∧ ordersGet (ordersInsert self.orders order_id { order with is_refund := true })
        order_id = some { order with is_refund := true } := by
  constructor
  · simp [refund, hget, hc, hr, ha]
  · exact ordersGet_insert_self _ _ _

theorem refund_zero_amount_witness :
    refund { owner_id := "owner",
             orders := [("o0",
               { order_id := "o0", payer_id := "alice", amount := 0,
                 received_amount := 7, is_completed := true,
                 is_refund := false, created_at := 5 })] } "o0" "owner" =
      .ok ({ owner_id := "owner",
             orders := [("o0",
               { order_id := "o0", payer_id := "alice", amount := 0,
                 received_amount := 7, is_completed := true,
                 is_refund := true, created_at := 5 })] },
           .value 0) :=
  ((refund_zero_amount
      { owner_id := "owner",
        orders := [("o0",
          { order_id := "o0", payer_id := "alice", amount := 0,
            received_amount := 7, is_completed := true,
            is_refund := false, created_at := 5 })] } "o0"
      { order_id := "o0", payer_id := "alice", amount := 0,
        received_amount := 7, is_completed := true,
        is_refund := false, created_at := 5 }
      (by decide) rfl rfl rfl).1)

/-- C8: a successful `pay_order` overwrites unconditionally (no duplicate
check), so after two successful payments under the same identifier the
stored record is exactly the second call's `payRecord`, regardless of the
first call's parameters. -/
theorem pay_order_overwrite (self : EcommerceContract) (order_id : OrderId)
    (amt1 att1 ts1 amt2 att2 ts2 : Nat) (sig1 sig2 : AccountId)
    (h1 : amt1 ≤ att1) (h2 : amt2 ≤ att2) :
    ∃ self1 change1 transfers1 self2 change2 transfers2,
      pay_order self order_id amt1 att1 sig1 ts1 =
        .ok (self1, change1, transfers1)
      ∧ pay_order self1 order_id amt2 att2 sig2 ts2 =
          .ok (self2, change2, transfers2)
      ∧ ordersGet self2.orders order_id =
          some (payRecord order_id amt2 att2 sig2 ts2) := by
  obtain ⟨t1, ht1⟩ := pay_order_ok self order_id amt1 att1 sig1 ts1 h1
  obtain ⟨t2, ht2⟩ := pay_order_ok _ order_id amt2 att2 sig2 ts2 h2
  exact ⟨_, _, t1, _, _, t2, ht1, ht2, ordersGet_insert_self _ _ _⟩

theorem pay_order_overwrite_witness :
    ∃ self1 change1 transfers1 self2 change2 transfers2,
      pay_order (EcommerceContract.new "owner") "o1" 1000 1500 "alice" 5 =
        .ok (self1, change1, transfers1)
      ∧ pay_order self1 "o1" 200 200 "bob" 9 =
          .ok (self2, change2, transfers2)
      ∧ ordersGet self2.orders "o1" = some (payRecord "o1" 200 200 "bob" 9) :=
  pay_order_overwrite (EcommerceContract.new "owner") "o1" 1000 1500 5 200
    200 9 "alice" "bob" (by decide) (by decide)

/-! ### State-shape helpers for the invariant claims -/

/-- Any successful `pay_order` leaves exactly the overwrite of
`payRecord` under `order_id`. -/
theorem pay_state_shape {self : EcommerceContract} {order_id : OrderId}
    {amt att ts : Nat} {sig : AccountId} {self' : EcommerceContract}
    {c : Nat} {tr : List Transfer}
    (h : pay_order self order_id amt att sig ts = .ok (self', c, tr)) :
    self' = { self with
              orders := ordersInsert self.orders order_id
                (payRecord order_id amt att sig ts) } := by
  by_cases hlt : att < amt
  · rw [pay_order, if_pos hlt] at h
    exact Except.noConfusion h
  · obtain ⟨t, ht⟩ := pay_order_ok self order_id amt att sig ts
      (Nat.le_of_not_lt hlt)
    rw [ht] at h
    simp only [Except.ok.injEq, Prod.mk.injEq] at h
    exact h.1.symm

/-- Any successful `refund` found a completed, not-yet-refunded order and
left exactly the overwrite with `is_refund = true`. -/
theorem refund_state_shape {self : EcommerceContract} {order_id : OrderId}
    {pred : AccountId} {self' : EcommerceContract} {out : RefundOutcome}
    (h : refund self order_id pred = .ok (self', out)) :
    ∃ order, ordersGet self.orders order_id = some order
      ∧ order.is_completed = true ∧ order.is_refund = false
      ∧ self' = { self with
                  orders := ordersInsert self.orders order_id
                    { order with is_refund := true } } := by
  unfold refund at h
  by_cases hp : pred ≠ self.owner_id
  · rw [if_pos hp] at h
    exact Except.noConfusion h
  · rw [if_neg hp] at h
    cases hg : ordersGet self.orders order_id with
    | none =>
      rw [hg] at h
      exact Except.noConfusion h
    | some order =>
      rw [hg] at h
      dsimp only at h
      by_cases hc : (order.is_completed && !order.is_refund) = true
      · rw [if_pos hc] at h
        have hc' : order.is_completed = true ∧ order.is_refund = false := by
          simpa using hc
        refine ⟨order, rfl, hc'.1, hc'.2, ?_⟩
        by_cases ha : 0 < order.amount
        · rw [if_pos ha] at h
          simp only [Except.ok.injEq, Prod.mk.injEq] at h
          exact h.1.symm
        · rw [if_neg ha] at h
          simp only [Except.ok.injEq, Prod.mk.injEq] at h
          exact h.1.symm
      · rw [if_neg hc] at h
        exact Except.noConfusion h

/-- Any successful `transfer_callback` either leaves the state untouched
(the `Successful` arm) or overwrites the re-read order with
`is_refund = false` (the `Failed` arm). -/
theorem transfer_callback_state_shape {self : EcommerceContract}
    {order_id : OrderId} {results : List PromiseResult}
    {self' : EcommerceContract} {r : Nat}
    (h : transfer_callback self order_id results = .ok (self', r)) :
    self' = self
    ∨ ∃ order, ordersGet self.orders order_id = some order
        ∧ self' = { self with
                    orders := ordersInsert self.orders order_id
                      { order with is_refund := false } } := by
  unfold transfer_callback at h
  by_cases hl : results.length ≠ 1
  · rw [if_pos hl] at h
    exact Except.noConfusion h
  · rw [if_neg hl] at h
    cases hh : results.head? with
    | none =>
      rw [hh] at h
      exact Except.noConfusion h
    | some res =>
      rw [hh] at h
      dsimp only at h
      cases res with
      | NotReady => exact Except.noConfusion h
      | Successful =>
        simp only [Except.ok.injEq, Prod.mk.injEq] at h
        exact Or.inl h.1.symm
      | Failed =>
        cases hg : ordersGet self.orders order_id with
        | none =>
          rw [hg] at h
          exact Except.noConfusion h
        | some order =>
          rw [hg] at h
          dsimp only at h
          simp only [Except.ok.injEq, Prod.mk.injEq] at h
          exact Or.inr ⟨order, rfl, h.1.symm⟩

/-- The C9 store invariant: every record in the store that is completed
received at least the requested amount. -/
def StoreInv (m : List (OrderId × Order)) : Prop :=
  ∀ p ∈ m, p.2.is_completed = true → p.2.amount ≤ p.2.received_amount

/-- The C10 store invariant: every record in the store is completed. -/
def AllCompleted (m : List (OrderId × Order)) : Prop :=
  ∀ p ∈ m, p.2.is_completed = true

/-- C9: the invariant "every completed record received at least its
requested amount" is established at creation (`pay_order` rejects
insufficient deposits before writing) and preserved by every operation —
`refund` and `transfer_callback` only toggle `is_refund`, never `amount`
or `received_amount`. -/
theorem received_ge_amount_invariant :
    (∀ self order_id amt att sig ts self' c tr,
      StoreInv self.orders →
      pay_order self order_id amt att sig ts = .ok (self', c, tr) →
      StoreInv self'.orders)
    ∧ (∀ self order_id pred self' out,
        StoreInv self.orders →
        refund self order_id pred = .ok (self', out) →
        StoreInv self'.orders)
    ∧ (∀ self order_id results self' r,
        StoreInv self.orders →
        transfer_callback self order_id results = .ok (self', r) →
        StoreInv self'.orders) := by
  refine ⟨?_, ?_, ?_⟩
  · intro self order_id amt att sig ts self' c tr hinv h
    by_cases hlt : att < amt
    · rw [pay_order, if_pos hlt] at h
      exact Except.noConfusion h
    · rw [pay_state_shape h]
      exact forall_mem_ordersInsert hinv fun _ => Nat.le_of_not_lt hlt
  · intro self order_id pred self' out hinv h
    obtain ⟨order, hg, hc, _, rfl⟩ := refund_state_shape h
    exact forall_mem_ordersInsert hinv
      fun _ => hinv (order_id, order) (mem_of_ordersGet hg) hc
  · intro self order_id results self' r hinv h
    rcases transfer_callback_state_shape h with rfl | ⟨order, hg, rfl⟩
    · exact hinv
    · exact forall_mem_ordersInsert hinv
        fun hcomp => hinv (order_id, order) (mem_of_ordersGet hg) hcomp

theorem received_ge_amount_invariant_witness :
    StoreInv (ordersInsert (EcommerceContract.new "owner").orders "o1"
      (payRecord "o1" 1000 1500 "alice" 5)) :=
  received_ge_amount_invariant.1 (EcommerceContract.new "owner") "o1" 1000
    1500 "alice" 5
    { owner_id := "owner",
      orders := ordersInsert (EcommerceContract.new "owner").orders "o1"
        (payRecord "o1" 1000 1500 "alice" 5) }
    500 [{ receiver := "alice", amount := 500 }]
    (fun p hp => absurd hp (List.not_mem_nil p)) rfl

/-- C10: every record ever stored is completed — `pay_order` (the only
record constructor) sets `is_completed := true` and the other operations
preserve the field — so `refund`'s `InvalidState` can only fire on an
order with `is_refund = true`, never on an incomplete one. -/
theorem all_completed_invariant :
    (∀ self order_id amt att sig ts self' c tr,
      AllCompleted self.orders →
      pay_order self order_id amt att sig ts = .ok (self', c, tr) →
      AllCompleted self'.orders)
    ∧ (∀ self order_id pred self' out,
        AllCompleted self.orders →
        refund self order_id pred = .ok (self', out) →
        AllCompleted self'.orders)
    ∧ (∀ self order_id results self' r,
        AllCompleted self.orders →
        transfer_callback self order_id results = .ok (self', r) →
        AllCompleted self'.orders)
    ∧ (∀ self order_id pred,
        AllCompleted self.orders →
        refund self order_id pred = .error .InvalidState →
        ∃ order, ordersGet self.orders order_id = some order
          ∧ order.is_refund = true) := by
  refine ⟨?_, ?_, ?_, ?_⟩
  · intro self order_id amt att sig ts self' c tr hinv h
    rw [pay_state_shape h]
    exact forall_mem_ordersInsert hinv rfl
  · intro self order_id pred self' out hinv h
    obtain ⟨order, hg, hc, _, rfl⟩ := refund_state_shape h
    exact forall_mem_ordersInsert hinv hc
  · intro self order_id results self' r hinv h
    rcases transfer_callback_state_shape h with rfl | ⟨order, hg, rfl⟩
    · exact hinv
    · exact forall_mem_ordersInsert hinv
        (hinv (order_id, order) (mem_of_ordersGet hg))
  · intro self order_id pred hinv h
    unfold refund at h
    by_cases hp : pred ≠ self.owner_id
    · rw [if_pos hp] at h
      simp at h
    · rw [if_neg hp] at h
      cases hg : ordersGet self.orders order_id with
      | none =>
        rw [hg] at h
        simp at h
      | some order =>
        rw [hg] at h
        dsimp only at h
        by_cases hc : (order.is_completed && !order.is_refund) = true
        · rw [if_pos hc] at h
          by_cases ha : 0 < order.amount
          · rw [if_pos ha] at h
            exact Except.noConfusion h
          · rw [if_neg ha] at h
            exact Except.noConfusion h
        · refine ⟨order, rfl, ?_⟩
          have hcomp : order.is_completed = true :=
            hinv (order_id, order) (mem_of_ordersGet hg)
          simp [hcomp] at hc
          exact hc

theorem all_completed_invariant_witness :
    ∃ order,
      ordersGet [("o1",
        { order_id := "o1", payer_id := "alice", amount := 1000,
          received_amount := 1500, is_completed := true,
          is_refund := true, created_at := 5 })] "o1" = some order
        ∧ order.is_refund = true :=
  all_completed_invariant.2.2.2
    { owner_id := "owner",
      orders := [("o1",
        { order_id := "o1", payer_id := "alice", amount := 1000,
          received_amount := 1500, is_completed := true,
          is_refund := true, created_at := 5 })] } "o1" "owner"
    (fun p hp => by
      simp only [List.mem_singleton] at hp
      rw [hp]) rfl
